import Mathlib

/-
  Verification development for the PestAI image-analysis microservice
  (src/main.py).  The Python service is shallowly embedded: pure pieces
  become Lean functions, the per-request pipeline becomes an explicit
  state-passing function, machine floats that are only compared are
  modelled as rationals, and external collaborators (the Gemini model,
  Python hashlib sha256) are parameters of the embedding.
-/

namespace PestAI

/- ----------------------------------------------------------------
   JSON values, as produced by json.loads on the model response text.
   Numbers are modelled as rationals: the service only stores and
   compares them, it never does float arithmetic on them.
   ---------------------------------------------------------------- -/

inductive Json where
  | null : Json
  | bool (b : Bool) : Json
  | num (q : Rat) : Json
  | str (s : String) : Json
  | arr (xs : List Json) : Json
  | obj (fields : List (String × Json)) : Json

/- Field lookup in a JSON object (Python dict keys are unique; the
   embedding takes the first binding). -/
def lookupField : List (String × Json) → String → Option Json
  | [], _ => none
  | (k, v) :: rest, name => if k = name then some v else lookupField rest name

/- ----------------------------------------------------------------
   Pydantic response models from src/main.py, lines 53-95, embedded as
   boolean validators over Json.  FastAPI applies them to the value the
   endpoint returns (response_model=AIAnalysisResponse).  Extra fields
   are ignored, required fields must be present with the right shape.
   ---------------------------------------------------------------- -/

/- SeverityLevel(str, Enum): LOW / MEDIUM / HIGH / CRITICAL. -/
def validSeverity : Option Json → Bool
  | some (.str s) => s = "LOW" || s = "MEDIUM" || s = "HIGH" || s = "CRITICAL"
  | _ => false

/- A required float field with Field(..., ge=0.0, le=1.0). -/
def validUnitFloat : Option Json → Bool
  | some (.num q) => decide (0 ≤ q) && decide (q ≤ 1)
  | _ => false

/- A required float field with no range constraint. -/
def validFloat : Option Json → Bool
  | some (.num _) => true
  | _ => false

/- A required str field. -/
def validStr : Option Json → Bool
  | some (.str _) => true
  | _ => false

/- Optional[str] = None: absent, null or a string. -/
def validOptStr : Option Json → Bool
  | none => true
  | some .null => true
  | some (.str _) => true
  | _ => false

/- class BoundingBox: x_min, y_min, x_max, y_max, each in [0,1]. -/
def validBoundingBox : Option Json → Bool
  | some (.obj f) =>
      validUnitFloat (lookupField f "x_min") && validUnitFloat (lookupField f "y_min") &&
      validUnitFloat (lookupField f "x_max") && validUnitFloat (lookupField f "y_max")
  | _ => false

/- class SolutionDetail: solution, details, optional source. -/
def validSolutionDetail : Json → Bool
  | .obj f => validStr (lookupField f "solution") && validStr (lookupField f "details") &&
      validOptStr (lookupField f "source")
  | _ => false

def validSolutionList : Option Json → Bool
  | some (.arr xs) => xs.all validSolutionDetail
  | _ => false

/- class RecommendationsGroup: biological, chemical, cultural. -/
def validRecommendationsGroup : Option Json → Bool
  | some (.obj f) => validSolutionList (lookupField f "biological") &&
      validSolutionList (lookupField f "chemical") && validSolutionList (lookupField f "cultural")
  | _ => false

def validStrList : Option Json → Bool
  | some (.arr xs) => xs.all (fun x => match x with | .str _ => true | _ => false)
  | _ => false

/- class DetailedInfo: description, impact, recommendations, knowledgeBaseTags. -/
def validDetailedInfo : Option Json → Bool
  | some (.obj f) => validStr (lookupField f "description") && validStr (lookupField f "impact") &&
      validRecommendationsGroup (lookupField f "recommendations") &&
      validStrList (lookupField f "knowledgeBaseTags")
  | _ => false

/- class Detection: className, confidenceScore, severity, boundingBox, details. -/
def validDetection : Json → Bool
  | .obj f => validStr (lookupField f "className") && validFloat (lookupField f "confidenceScore") &&
      validSeverity (lookupField f "severity") && validBoundingBox (lookupField f "boundingBox") &&
      validDetailedInfo (lookupField f "details")
  | _ => false

/- class AnalysisSubject: subjectType is a PLAIN str (not the enum) and
   confidence is a PLAIN float (no ge/le bound) in src/main.py 88-91. -/
def validAnalysisSubject : Option Json → Bool
  | some (.obj f) => validStr (lookupField f "subjectType") && validStr (lookupField f "description") &&
      validFloat (lookupField f "confidence")
  | _ => false

/- class AIAnalysisResponse: subject + detections. -/
def validateAIAnalysisResponse : Json → Bool
  | .obj f => validAnalysisSubject (lookupField f "subject") &&
      (match lookupField f "detections" with
       | some (.arr xs) => xs.all validDetection
       | _ => false)
  | _ => false

/- ----------------------------------------------------------------
   Outcome of one call to the external Gemini model, including the
   fate of json.loads on its text (success carries the parse result:
   some j when the text is valid JSON, none when it is not).
   ---------------------------------------------------------------- -/

inductive GoogleAPIError where
  | resourceExhausted : GoogleAPIError
  | serviceUnavailable : GoogleAPIError
  | permissionDenied : GoogleAPIError
  | invalidArgument : GoogleAPIError
  | otherAPIError : GoogleAPIError
deriving DecidableEq

inductive ModelOutcome where
  | success (parsed : Option Json) : ModelOutcome
  | apiError (e : GoogleAPIError) : ModelOutcome
  | timeoutError : ModelOutcome
  | otherError : ModelOutcome

/- The retry whitelist of the tenacity decorator on
   generate_gemini_analysis: ResourceExhausted, ServiceUnavailable,
   asyncio.TimeoutError (src/main.py 147-151). -/
def isRetryable : ModelOutcome → Bool
  | .apiError .resourceExhausted => true
  | .apiError .serviceUnavailable => true
  | .timeoutError => true
  | _ => false

/- tenacity wait_exponential(multiplier, max, exp_base, min) evaluated
   at a given attempt_number:
   max(max(0, min), min(multiplier * exp_base^(attempt_number-1), max)). -/
def wait_exponential (multiplier mx expBase mn attemptNumber : Nat) : Nat :=
  Nat.max (Nat.max 0 mn) (Nat.min (multiplier * expBase ^ (attemptNumber - 1)) mx)

/- The concrete wait configuration of src/main.py line 146:
   wait_exponential(multiplier=1, min=2, max=10). -/
def backoffWait (attemptNumber : Nat) : Nat :=
  wait_exponential 1 10 2 2 attemptNumber

/- Result of the retry-wrapped call.  Without reraise=True, tenacity
   raises RetryError wrapping the final attempt once the stop condition
   is met; a non-whitelisted exception is re-raised as itself. -/
inductive RetryResult where
  | ok (parsed : Option Json) : RetryResult
  | retryError (last : ModelOutcome) : RetryResult
  | raised (e : ModelOutcome) : RetryResult

structure RetryRun where
  result : RetryResult
  calls : Nat
  waits : List Nat

/- The tenacity loop: call attempt number `attempt`; on success return;
   on a non-whitelisted failure re-raise it; on a whitelisted failure
   stop with RetryError when no attempt remains, else sleep the backoff
   wait for this attempt_number and retry.  `remaining` counts the
   attempts still allowed including the current one. -/
def tenacityGo (u : Nat → ModelOutcome) : Nat → Nat → RetryRun
  | 0, attempt =>
    match u attempt with
    | .success t => ⟨.ok t, 1, []⟩
    | o => if isRetryable o then ⟨.retryError o, 1, []⟩ else ⟨.raised o, 1, []⟩
  | 1, attempt =>
    match u attempt with
    | .success t => ⟨.ok t, 1, []⟩
    | o => if isRetryable o then ⟨.retryError o, 1, []⟩ else ⟨.raised o, 1, []⟩
  | r + 2, attempt =>
    match u attempt with
    | .success t => ⟨.ok t, 1, []⟩
    | o =>
      if isRetryable o then
        let rest := tenacityGo u (r + 1) (attempt + 1)
        ⟨rest.result, rest.calls + 1, backoffWait attempt :: rest.waits⟩
      else ⟨.raised o, 1, []⟩

structure ImagePart where
  mime_type : String
  data : List Nat

/- generate_gemini_analysis (src/main.py 144-161): the model call under
   @retry(stop=stop_after_attempt(3), wait=wait_exponential(multiplier=1,
   min=2, max=10), retry=retry_if_exception_type(...)).  The external
   model is a parameter mapping (image part, attempt number) to an
   outcome. -/
def generate_gemini_analysis (model : ImagePart → Nat → ModelOutcome) (image_part : ImagePart) :
    RetryRun :=
  tenacityGo (model image_part) 3 1

/- ----------------------------------------------------------------
   The uploaded file: a byte stream with a read position, as exposed by
   UploadFile.  read() consumes from the current position to the end;
   seek(p) moves the position.
   ---------------------------------------------------------------- -/

structure UploadFile where
  bytes : List Nat
  filename : String
  content_type : String
  pos : Nat

def fileRead (f : UploadFile) : List Nat × UploadFile :=
  (f.bytes.drop f.pos, { f with pos := f.bytes.length })

def fileSeek (f : UploadFile) (p : Nat) : UploadFile :=
  { f with pos := p }

/- ----------------------------------------------------------------
   hashlib sha256 hexdigest.  The hash itself is an external primitive,
   modelled as a parameter producing a 256-bit number (< 16^64); its
   hexdigest is the 64 lowercase hex characters of that number.
   ---------------------------------------------------------------- -/

def hexChar : Nat → Char
  | 0 => '0' | 1 => '1' | 2 => '2' | 3 => '3'
  | 4 => '4' | 5 => '5' | 6 => '6' | 7 => '7'
  | 8 => '8' | 9 => '9' | 10 => 'a' | 11 => 'b'
  | 12 => 'c' | 13 => 'd' | 14 => 'e' | _ => 'f'

/- The k base-16 digits of n, least significant first. -/
def nibbles : Nat → Nat → List Nat
  | 0, _ => []
  | k + 1, n => n % 16 :: nibbles k (n / 16)

def hexdigest (n : Nat) : String :=
  String.mk (((nibbles 64 n).map hexChar).reverse)

/- image_key_builder (src/main.py 164-169): read the whole file body,
   seek back to 0, and return "namespace:sha256-hexdigest". -/
def image_key_builder (sha256 : List Nat → Nat) (ns : String) (file : UploadFile) :
    String × UploadFile :=
  let rd := fileRead file
  let f2 := fileSeek rd.2 0
  (ns ++ ":" ++ hexdigest (sha256 rd.1), f2)

/- ----------------------------------------------------------------
   slowapi limiter with default_limits 15/minute: a fixed window per
   client identity, anchored at the first hit of the window; a hit
   increments the counter and is admitted while the new count stays
   within the cap; the counter expires when the window elapses.
   ---------------------------------------------------------------- -/

def RATE_CAP : Nat := 15
def RATE_WINDOW : Nat := 60

structure Bucket where
  windowStart : Nat
  count : Nat
deriving DecidableEq

def limiterHit (now : Nat) (b : Option Bucket) : Bool × Bucket :=
  match b with
  | none => (true, ⟨now, 1⟩)
  | some bk =>
    if now < bk.windowStart + RATE_WINDOW then
      (decide (bk.count + 1 ≤ RATE_CAP), ⟨bk.windowStart, bk.count + 1⟩)
    else (true, ⟨now, 1⟩)

abbrev Buckets := List (String × Bucket)

def bucketsGet : Buckets → String → Option Bucket
  | [], _ => none
  | (k, v) :: rest, id => if k = id then some v else bucketsGet rest id

/- ----------------------------------------------------------------
   fastapi_cache InMemoryBackend: key to (value, expiry timestamp);
   get misses once the entry has expired; set stores with now + ttl.
   ---------------------------------------------------------------- -/

def CACHE_TTL : Nat := 86400

abbrev Cache := List (String × (Json × Nat))

def cacheGet : Cache → String → Nat → Option Json
  | [], _, _ => none
  | (k, ve) :: rest, key, now =>
    if k = key then (if now < ve.2 then some ve.1 else none)
    else cacheGet rest key now

def cacheSet (c : Cache) (key : String) (v : Json) (now : Nat) : Cache :=
  (key, (v, now + CACHE_TTL)) :: c

structure ServerState where
  cache : Cache
  buckets : Buckets

/- ----------------------------------------------------------------
   The endpoint.
   ---------------------------------------------------------------- -/

inductive HTTPResult where
  | ok (body : Json) : HTTPResult
  | error (status : Nat) (detail : String) : HTTPResult

/- What the endpoint body itself produces: a returned JSON value or a
   raised HTTPException. -/
inductive BodyResult where
  | ret (j : Json) : BodyResult
  | httpExc (status : Nat) (detail : String) : BodyResult

/- Per-request interaction counts with the three subsystems. -/
structure Trace where
  limiterChecks : Nat
  keyDerivations : Nat
  cacheLookups : Nat
  modelCalls : Nat
  cacheWrites : Nat
deriving DecidableEq

def ALLOWED_CONTENT_TYPES : List String := ["image/jpeg", "image/png"]

/- The body of analyze_image_endpoint (src/main.py 181-222): content
   type whitelist check, file read, retry-wrapped model call, json
   parse, exception-to-status mapping.  Returns the body outcome, the
   file state after the body, and the number of model calls made. -/
def analyze_body (model : ImagePart → Nat → ModelOutcome) (file : UploadFile) :
    BodyResult × UploadFile × Nat :=
  if file.content_type ∈ ALLOWED_CONTENT_TYPES then
    let rd := fileRead file
    let image_part : ImagePart := ⟨file.content_type, rd.1⟩
    let run := generate_gemini_analysis model image_part
    match run.result with
    | .ok (some j) => (.ret j, rd.2, run.calls)
    | .ok none => (.httpExc 502 "Reponse invalide du service IA (non-JSON).", rd.2, run.calls)
    | .raised (.apiError .permissionDenied) =>
        (.httpExc 403 "Erreur authentification avec API Gemini.", rd.2, run.calls)
    | .raised (.apiError .invalidArgument) =>
        (.httpExc 400 "Argument invalide envoye a API Gemini.", rd.2, run.calls)
    | .raised (.apiError _) => (.httpExc 503 "Erreur du service IA (API Google).", rd.2, run.calls)
    | .raised _ => (.httpExc 500 "Erreur interne du serveur.", rd.2, run.calls)
    | .retryError _ => (.httpExc 500 "Erreur interne du serveur.", rd.2, run.calls)
  else (.httpExc 415 "Format image non supporte. Utilisez JPEG ou PNG.", file, 0)

/- FastAPI applies response_model=AIAnalysisResponse to the value the
   (cached) endpoint returns; a non-conforming value becomes a 500
   response validation error. -/
def responseValidate (j : Json) : HTTPResult :=
  if validateAIAnalysisResponse j then .ok j else .error 500 "Response validation error"

/- The HTTP method the cache decorator observes on this endpoint: the
   route is registered only through app.post, and the endpoint declares
   request: Request (slowapi needs it), so the decorator always sees a
   POST request. -/
def REQUEST_METHOD : String := "POST"

/- One request through the decorated endpoint.  Decorators run outside
   in: @limiter.limit first, then the @cache decorator, then the body;
   finally FastAPI validates a returned value against the response
   model.  The fastapi-cache2 decorator pops request/response from the
   kwargs and only performs its caching work (key_builder, backend
   probe, store of the returned value with the TTL) when the request
   method is GET; for any other method it calls the wrapped function
   directly, touching neither the key builder nor the backend.  On this
   POST route the cache machinery is therefore never exercised. -/
def analyze_image_endpoint (sha256 : List Nat → Nat) (model : ImagePart → Nat → ModelOutcome)
    (identity : String) (now : Nat) (file : UploadFile) (st : ServerState) :
    HTTPResult × ServerState × Trace :=
  let lh := limiterHit now (bucketsGet st.buckets identity)
  let st1 : ServerState := ⟨st.cache, (identity, lh.2) :: st.buckets⟩
  if lh.1 then
    if REQUEST_METHOD = "GET" then
      let kb := image_key_builder sha256 "pestai-analysis" file
      match cacheGet st1.cache kb.1 now with
      | some v => (responseValidate v, st1, ⟨1, 1, 1, 0, 0⟩)
      | none =>
        let bo := analyze_body model kb.2
        match bo.1 with
        | .ret j =>
            (responseValidate j, ⟨cacheSet st1.cache kb.1 j now, st1.buckets⟩,
             ⟨1, 1, 1, bo.2.2, 1⟩)
        | .httpExc s d => (.error s d, st1, ⟨1, 1, 1, bo.2.2, 0⟩)
    else
      let bo := analyze_body model file
      match bo.1 with
      | .ret j => (responseValidate j, st1, ⟨1, 0, 0, bo.2.2, 0⟩)
      | .httpExc s d => (.error s d, st1, ⟨1, 0, 0, bo.2.2, 0⟩)
  else (.error 429 "Rate limit exceeded: 15 per 1 minute", st1, ⟨1, 0, 0, 0, 0⟩)

/- ----------------------------------------------------------------
   Concrete JSON fixtures used by several theorems.
   ---------------------------------------------------------------- -/

/- A minimal value accepted by the response model. -/
def jGoodMinimal : Json :=
  .obj [("subject", .obj [("subjectType", .str "PLANT"), ("description", .str "maize"),
          ("confidence", .num 1)]), ("detections", .arr [])]

/- A syntactically valid response whose one detection is complete
   except for the required severity field. -/
def jMissingSeverity : Json :=
  .obj [("subject", .obj [("subjectType", .str "PEST"), ("description", .str "aphid"),
          ("confidence", .num (9/10))]),
        ("detections", .arr [
          .obj [("className", .str "aphid-infestation"),
                ("confidenceScore", .num (4/5)),
                ("boundingBox", .obj [("x_min", .num 0), ("y_min", .num 0),
                    ("x_max", .num 1), ("y_max", .num 1)]),
                ("details", .obj [("description", .str "d"), ("impact", .str "i"),
                    ("recommendations", .obj [("biological", .arr []), ("chemical", .arr []),
                        ("cultural", .arr [])]),
                    ("knowledgeBaseTags", .arr [.str "aphid"])])]])]

/- A response whose subjectType is outside PLANT/PEST/UNKNOWN and whose
   confidence is outside [0,1]. -/
def jBadSubject : Json :=
  .obj [("subject", .obj [("subjectType", .str "ROCK"), ("description", .str "a rock"),
          ("confidence", .num 2)]), ("detections", .arr [])]

/- ----------------------------------------------------------------
   Helper lemmas about the retry loop.
   ---------------------------------------------------------------- -/

theorem tenacityGo_success {u : Nat → ModelOutcome} {a : Nat} {t : Option Json}
    (h : u a = .success t) : ∀ r, tenacityGo u r a = ⟨.ok t, 1, []⟩
  | 0 => by simp [tenacityGo, h]
  | 1 => by simp [tenacityGo, h]
  | _ + 2 => by simp [tenacityGo, h]

theorem tenacityGo_nonretry {u : Nat → ModelOutcome} {a : Nat}
    (hne : ∀ t, u a ≠ .success t) (hnr : isRetryable (u a) = false) (r : Nat) :
    tenacityGo u r a = ⟨.raised (u a), 1, []⟩ := by
  cases ho : u a with
  | success t => exact absurd ho (hne t)
  | apiError e =>
      rw [ho] at hnr
      match r with
      | 0 => simp [tenacityGo, ho, hnr]
      | 1 => simp [tenacityGo, ho, hnr]
      | _ + 2 => simp [tenacityGo, ho, hnr]
  | timeoutError =>
      rw [ho] at hnr
      simp [isRetryable] at hnr
  | otherError =>
      match r with
      | 0 => simp [tenacityGo, ho, isRetryable]
      | 1 => simp [tenacityGo, ho, isRetryable]
      | _ + 2 => simp [tenacityGo, ho, isRetryable]

theorem tenacityGo_retry {u : Nat → ModelOutcome} {a : Nat}
    (hr : isRetryable (u a) = true) (r : Nat) :
    tenacityGo u (r + 2) a =
      ⟨(tenacityGo u (r + 1) (a + 1)).result, (tenacityGo u (r + 1) (a + 1)).calls + 1,
        backoffWait a :: (tenacityGo u (r + 1) (a + 1)).waits⟩ := by
  cases ho : u a with
  | success t => rw [ho] at hr; simp [isRetryable] at hr
  | apiError e => rw [ho] at hr; simp [tenacityGo, ho, hr]
  | timeoutError => simp [tenacityGo, ho, isRetryable]
  | otherError => rw [ho] at hr; simp [isRetryable] at hr

theorem tenacityGo_stop {u : Nat → ModelOutcome} {a : Nat}
    (hr : isRetryable (u a) = true) :
    tenacityGo u 1 a = ⟨.retryError (u a), 1, []⟩ := by
  cases ho : u a with
  | success t => rw [ho] at hr; simp [isRetryable] at hr
  | apiError e => rw [ho] at hr; simp [tenacityGo, ho, hr]
  | timeoutError => simp [tenacityGo, ho, isRetryable]
  | otherError => rw [ho] at hr; simp [isRetryable] at hr

/- Exhaustive characterization of a run of the retry wrapper with
   stop_after_attempt(3): at most three calls, retrying exactly on the
   whitelisted outcomes, waiting 2 seconds between consecutive
   attempts (wait_exponential(multiplier=1, min=2, max=10) evaluated
   at attempt numbers 1 and 2). -/
theorem genRun_cases (u : Nat → ModelOutcome) :
    (∃ t, u 1 = .success t ∧ tenacityGo u 3 1 = ⟨.ok t, 1, []⟩) ∨
    ((∀ t, u 1 ≠ .success t) ∧ isRetryable (u 1) = false ∧
        tenacityGo u 3 1 = ⟨.raised (u 1), 1, []⟩) ∨
    (isRetryable (u 1) = true ∧ (
      (∃ t, u 2 = .success t ∧ tenacityGo u 3 1 = ⟨.ok t, 2, [2]⟩) ∨
      ((∀ t, u 2 ≠ .success t) ∧ isRetryable (u 2) = false ∧
          tenacityGo u 3 1 = ⟨.raised (u 2), 2, [2]⟩) ∨
      (isRetryable (u 2) = true ∧ (
        (∃ t, u 3 = .success t ∧ tenacityGo u 3 1 = ⟨.ok t, 3, [2, 2]⟩) ∨
        ((∀ t, u 3 ≠ .success t) ∧ isRetryable (u 3) = false ∧
            tenacityGo u 3 1 = ⟨.raised (u 3), 3, [2, 2]⟩) ∨
        (isRetryable (u 3) = true ∧
            tenacityGo u 3 1 = ⟨.retryError (u 3), 3, [2, 2]⟩))))) := by
  have hw1 : backoffWait 1 = 2 := by decide
  have hw2 : backoffWait 2 = 2 := by decide
  by_cases hs1 : ∃ t, u 1 = .success t
  · obtain ⟨t, h⟩ := hs1
    exact Or.inl ⟨t, h, tenacityGo_success h 3⟩
  · push_neg at hs1
    by_cases hr1 : isRetryable (u 1) = true
    · right; right
      refine ⟨hr1, ?_⟩
      have h31 : tenacityGo u 3 1 = ⟨(tenacityGo u 2 2).result, (tenacityGo u 2 2).calls + 1,
          backoffWait 1 :: (tenacityGo u 2 2).waits⟩ := tenacityGo_retry hr1 1
      by_cases hs2 : ∃ t, u 2 = .success t
      · obtain ⟨t, h⟩ := hs2
        refine Or.inl ⟨t, h, ?_⟩
        rw [h31, tenacityGo_success h 2]
        simp [hw1]
      · push_neg at hs2
        by_cases hr2 : isRetryable (u 2) = true
        · right; right
          refine ⟨hr2, ?_⟩
          have h22 : tenacityGo u 2 2 = ⟨(tenacityGo u 1 3).result, (tenacityGo u 1 3).calls + 1,
              backoffWait 2 :: (tenacityGo u 1 3).waits⟩ := tenacityGo_retry hr2 0
          by_cases hs3 : ∃ t, u 3 = .success t
          · obtain ⟨t, h⟩ := hs3
            refine Or.inl ⟨t, h, ?_⟩
            rw [h31, h22, tenacityGo_success h 1]
            simp [hw1, hw2]
          · push_neg at hs3
            by_cases hr3 : isRetryable (u 3) = true
            · right; right
              refine ⟨hr3, ?_⟩
              rw [h31, h22, tenacityGo_stop hr3]
              simp [hw1, hw2]
            · right; left
              refine ⟨hs3, by simpa using hr3, ?_⟩
              rw [h31, h22, tenacityGo_nonretry hs3 (by simpa using hr3) 1]
              simp [hw1, hw2]
        · right; left
          refine ⟨hs2, by simpa using hr2, ?_⟩
          rw [h31, tenacityGo_nonretry hs2 (by simpa using hr2) 2]
          simp [hw1]
    · exact Or.inr (Or.inl ⟨hs1, by simpa using hr1,
        tenacityGo_nonretry hs1 (by simpa using hr1) 3⟩)

/- ----------------------------------------------------------------
   Helper lemmas about the rate limiter, the hex digest and strings.
   ---------------------------------------------------------------- -/

theorem request_method_not_get : ¬ (REQUEST_METHOD = "GET") := by decide

theorem limiterHit_allows_under_cap (now : Nat) (b : Option Bucket)
    (h : ∀ bk, b = some bk → bk.count < RATE_CAP) : (limiterHit now b).1 = true := by
  cases b with
  | none => rfl
  | some bk =>
    have hc := h bk rfl
    simp only [limiterHit]
    split
    · simp only [RATE_CAP] at hc ⊢
      simp only [decide_eq_true_eq]
      omega
    · rfl

theorem responseValidate_ok {v j : Json} (h : responseValidate v = .ok j) :
    validateAIAnalysisResponse j = true := by
  unfold responseValidate at h
  split at h
  · injection h with h2
    subst h2
    assumption
  · exact HTTPResult.noConfusion h

theorem nibbles_lt : ∀ k n x, x ∈ nibbles k n → x < 16
  | 0, n, x, hx => by simp [nibbles] at hx
  | k + 1, n, x, hx => by
      simp only [nibbles, List.mem_cons] at hx
      rcases hx with h | h
      · omega
      · exact nibbles_lt k (n / 16) x h

theorem nibbles_inj : ∀ k a b, a < 16 ^ k → b < 16 ^ k → nibbles k a = nibbles k b → a = b
  | 0, a, b, ha, hb, _ => by
      simp only [pow_zero] at ha hb
      omega
  | k + 1, a, b, ha, hb, h => by
      rw [pow_succ] at ha hb
      simp only [nibbles, List.cons.injEq] at h
      have hda : a / 16 < 16 ^ k := by omega
      have hdb : b / 16 < 16 ^ k := by omega
      have hd := nibbles_inj k (a / 16) (b / 16) hda hdb h.2
      omega

theorem hexChar_inj_fin : ∀ a b : Fin 16, hexChar a.val = hexChar b.val → a = b := by decide

theorem map_hexChar_inj : ∀ l1 l2 : List Nat, (∀ x ∈ l1, x < 16) → (∀ x ∈ l2, x < 16) →
    l1.map hexChar = l2.map hexChar → l1 = l2
  | [], [], _, _, _ => rfl
  | [], _ :: _, _, _, h => by simp at h
  | _ :: _, [], _, _, h => by simp at h
  | x :: xs, y :: ys, h1, h2, h => by
      simp only [List.map_cons, List.cons.injEq] at h
      have hx : x = y := by
        have hfin := hexChar_inj_fin ⟨x, h1 x (by simp)⟩ ⟨y, h2 y (by simp)⟩ h.1
        exact congrArg Fin.val hfin
      have ht := map_hexChar_inj xs ys (fun z hz => h1 z (by simp [hz]))
        (fun z hz => h2 z (by simp [hz])) h.2
      rw [hx, ht]

theorem hexdigest_inj {a b : Nat} (ha : a < 16 ^ 64) (hb : b < 16 ^ 64)
    (h : hexdigest a = hexdigest b) : a = b := by
  have hdata : (((nibbles 64 a).map hexChar).reverse) = (((nibbles 64 b).map hexChar).reverse) :=
    congrArg String.data h
  have hmap := List.reverse_injective hdata
  exact nibbles_inj 64 a b ha hb
    (map_hexChar_inj _ _ (fun x hx => nibbles_lt 64 a x hx) (fun x hx => nibbles_lt 64 b x hx) hmap)

theorem string_append_cancel_left : ∀ s t1 t2 : String, s ++ t1 = s ++ t2 → t1 = t2 := by
  intro s t1 t2 h
  rcases s with ⟨d⟩
  rcases t1 with ⟨e1⟩
  rcases t2 with ⟨e2⟩
  have h2 : d ++ e1 = d ++ e2 := congrArg String.data h
  exact congrArg String.mk (List.append_cancel_left h2)

/- ----------------------------------------------------------------
   Claims.
   ---------------------------------------------------------------- -/

/-- Claim C1, evaluation at the failing input: when every one of the 3
attempts fails with the whitelisted transient ServiceUnavailable, the
retry wrapper terminates with a tenacity RetryError wrapping the final
failure (reraise is not set), not with an exception of the same kind,
and the endpoint maps it through the generic except-Exception handler
to HTTP 500, not to the service-unavailable 503 branch. -/
theorem C1_exhausted_retries_surface_as_500 :
    generate_gemini_analysis (fun _ _ => .apiError .serviceUnavailable) ⟨"image/jpeg", [1]⟩ =
      ⟨.retryError (.apiError .serviceUnavailable), 3, [2, 2]⟩ ∧
    (analyze_image_endpoint (fun _ => 0) (fun _ _ => .apiError .serviceUnavailable)
        "client" 0 ⟨[1], "leaf.jpg", "image/jpeg", 0⟩ ⟨[], []⟩).1 =
      .error 500 "Erreur interne du serveur." :=
  ⟨rfl, rfl⟩

/-- Claim C2, counterexample: an upload declared application/pdf is
rejected with 415 and the cache and the model indeed see zero
interactions (fastapi-cache2 bypasses this non-GET request), but the
request has already been checked, and counted, by the rate limiter:
the limiter sees one interaction, not the zero the claim demands. -/
theorem C2_counterexample_pdf_reaches_limiter :
    (analyze_image_endpoint (fun _ => 0) (fun _ _ => .otherError) "client" 0
        ⟨[1], "doc.pdf", "application/pdf", 0⟩ ⟨[], []⟩).1 =
      .error 415 "Format image non supporte. Utilisez JPEG ou PNG." ∧
    (analyze_image_endpoint (fun _ => 0) (fun _ _ => .otherError) "client" 0
        ⟨[1], "doc.pdf", "application/pdf", 0⟩ ⟨[], []⟩).2.2 = ⟨1, 0, 0, 0, 0⟩ ∧
    (1 : Nat) ≠ 0 :=
  ⟨rfl, rfl, by decide⟩

/-- Claim C2, amended: an upload whose content type is outside the
whitelist is rejected with the 415 unsupported-media error before any
cache interaction and before any model invocation — the cache decorator
performs no key derivation, no lookup and no store (it bypasses
non-GET requests) and the model sees zero calls — but after the
rate-limiter check, which sees exactly one interaction because
@limiter.limit wraps the endpoint; provided the limiter admits the
request, the response is the 415 error and the cache is unchanged. -/
theorem C2_amended_pdf_rejected_after_limiter_only (sha256 : List Nat → Nat)
    (model : ImagePart → Nat → ModelOutcome) (identity : String) (now : Nat)
    (file : UploadFile) (st : ServerState)
    (hct : file.content_type ∉ ALLOWED_CONTENT_TYPES)
    (hallow : (limiterHit now (bucketsGet st.buckets identity)).1 = true) :
    analyze_image_endpoint sha256 model identity now file st =
      (.error 415 "Format image non supporte. Utilisez JPEG ou PNG.",
       ⟨st.cache, (identity, (limiterHit now (bucketsGet st.buckets identity)).2) :: st.buckets⟩,
       ⟨1, 0, 0, 0, 0⟩) := by
  simp only [analyze_image_endpoint, hallow, if_true, if_neg request_method_not_get]
  simp [analyze_body, hct]

theorem C2_amended_pdf_rejected_after_limiter_only_witness :
    analyze_image_endpoint (fun _ => 0) (fun _ _ => .otherError) "client" 0
        ⟨[2], "doc.pdf", "application/pdf", 0⟩ ⟨[], []⟩ =
      (.error 415 "Format image non supporte. Utilisez JPEG ou PNG.",
       ⟨[], [("client", ⟨0, 1⟩)]⟩, ⟨1, 0, 0, 0, 0⟩) :=
  C2_amended_pdf_rejected_after_limiter_only (fun _ => 0) (fun _ _ => .otherError) "client" 0
    ⟨[2], "doc.pdf", "application/pdf", 0⟩ ⟨[], []⟩ (by decide) rfl

/-- Claim C6: the cache key is the endpoint namespace joined to the
hex digest of the hash of the raw byte content, so two uploads with
identical bytes get identical keys whatever their filename or declared
content type, and two uploads whose keys coincide have colliding
hashes (hence distinct bytes give distinct keys unless the underlying
sha256 itself collides). -/
theorem C6_content_addressed_key (sha256 : List Nat → Nat) (ns : String) (f1 f2 : UploadFile)
    (hp1 : f1.pos = 0) (hp2 : f2.pos = 0)
    (hs1 : sha256 f1.bytes < 16 ^ 64) (hs2 : sha256 f2.bytes < 16 ^ 64) :
    (image_key_builder sha256 ns f1).1 = ns ++ ":" ++ hexdigest (sha256 f1.bytes) ∧
    (f1.bytes = f2.bytes →
      (image_key_builder sha256 ns f1).1 = (image_key_builder sha256 ns f2).1) ∧
    ((image_key_builder sha256 ns f1).1 = (image_key_builder sha256 ns f2).1 →
      sha256 f1.bytes = sha256 f2.bytes) := by
  have hk1 : (image_key_builder sha256 ns f1).1 = ns ++ ":" ++ hexdigest (sha256 f1.bytes) := by
    simp [image_key_builder, fileRead, hp1]
  have hk2 : (image_key_builder sha256 ns f2).1 = ns ++ ":" ++ hexdigest (sha256 f2.bytes) := by
    simp [image_key_builder, fileRead, hp2]
  refine ⟨hk1, fun hb => ?_, fun hk => ?_⟩
  · rw [hk1, hk2, hb]
  · rw [hk1, hk2] at hk
    exact hexdigest_inj hs1 hs2 (string_append_cancel_left _ _ _ hk)

theorem C6_content_addressed_key_witness :
    ((image_key_builder (fun l => l.length) "pestai-analysis"
        ⟨[7], "a.jpg", "image/jpeg", 0⟩).1 =
      "pestai-analysis" ++ ":" ++ hexdigest ((fun l : List Nat => l.length) [7])) ∧
    (([7] : List Nat) = [7] →
      (image_key_builder (fun l => l.length) "pestai-analysis"
          ⟨[7], "a.jpg", "image/jpeg", 0⟩).1 =
        (image_key_builder (fun l => l.length) "pestai-analysis"
          ⟨[7], "b.png", "image/png", 0⟩).1) ∧
    ((image_key_builder (fun l => l.length) "pestai-analysis"
          ⟨[7], "a.jpg", "image/jpeg", 0⟩).1 =
        (image_key_builder (fun l => l.length) "pestai-analysis"
          ⟨[7], "b.png", "image/png", 0⟩).1 →
      (fun l : List Nat => l.length) [7] = (fun l : List Nat => l.length) [7]) :=
  C6_content_addressed_key (fun l => l.length) "pestai-analysis"
    ⟨[7], "a.jpg", "image/jpeg", 0⟩ ⟨[7], "b.png", "image/png", 0⟩ rfl rfl
    (by norm_num) (by norm_num)

/-- Claim C10: image_key_builder seeks the uploaded stream back to
position 0 after consuming it for the hash, so the read performed
afterwards in the endpoint body observes the complete byte content of
the upload (bytes and content type are unchanged by the builder). -/
theorem C10_key_builder_resets_position (sha256 : List Nat → Nat) (ns : String)
    (f : UploadFile) :
    (image_key_builder sha256 ns f).2.pos = 0 ∧
    (fileRead (image_key_builder sha256 ns f).2).1 = f.bytes ∧
    (image_key_builder sha256 ns f).2.bytes = f.bytes ∧
    (image_key_builder sha256 ns f).2.content_type = f.content_type := by
  refine ⟨rfl, ?_, rfl, rfl⟩
  simp [image_key_builder, fileRead, fileSeek]

/-- Claim C4: the retry wrapper makes between 1 and 3 upstream calls,
every attempt which is followed by another attempt failed with a
whitelisted transient outcome (upstream resource exhaustion, upstream
service unavailability, call timeout), and a first attempt that fails
with any non-whitelisted outcome results in exactly one call whose
failure is re-raised unchanged and immediately. -/
theorem C4_retry_whitelist_and_attempt_bound (model : ImagePart → Nat → ModelOutcome)
    (part : ImagePart) :
    (1 ≤ (generate_gemini_analysis model part).calls ∧
        (generate_gemini_analysis model part).calls ≤ 3) ∧
    (∀ i, 1 ≤ i → i < (generate_gemini_analysis model part).calls →
        isRetryable (model part i) = true) ∧
    ((∀ t, model part 1 ≠ .success t) → isRetryable (model part 1) = false →
        generate_gemini_analysis model part = ⟨.raised (model part 1), 1, []⟩) := by
  have hg : generate_gemini_analysis model part = tenacityGo (model part) 3 1 := rfl
  rcases genRun_cases (model part) with ⟨t, h1, he⟩ | ⟨hne, hnr, he⟩ | ⟨hr1, H2⟩
  · rw [hg, he]
    refine ⟨by simp, fun i hi1 hi2 => ?_, fun hne1 _ => absurd h1 (hne1 t)⟩
    simp at hi2
    omega
  · rw [hg, he]
    refine ⟨by simp, fun i hi1 hi2 => ?_, fun _ _ => rfl⟩
    simp at hi2
    omega
  · rcases H2 with ⟨t, h2, he⟩ | ⟨hne2, hnr2, he⟩ | ⟨hr2, H3⟩
    · rw [hg, he]
      refine ⟨by simp, fun i hi1 hi2 => ?_, fun _ hnr1 => by simp [hr1] at hnr1⟩
      simp at hi2
      have hi : i = 1 := by omega
      subst hi
      exact hr1
    · rw [hg, he]
      refine ⟨by simp, fun i hi1 hi2 => ?_, fun _ hnr1 => by simp [hr1] at hnr1⟩
      simp at hi2
      have hi : i = 1 := by omega
      subst hi
      exact hr1
    · have hcase : ∀ i, 1 ≤ i → i < 3 → isRetryable (model part i) = true := by
        intro i hi1 hi2
        have hi : i = 1 ∨ i = 2 := by omega
        rcases hi with hi | hi <;> subst hi
        · exact hr1
        · exact hr2
      rcases H3 with ⟨t, h3, he⟩ | ⟨hne3, hnr3, he⟩ | ⟨hr3, he⟩ <;> rw [hg, he] <;>
        refine ⟨by simp, fun i hi1 hi2 => hcase i hi1 (by simpa using hi2),
          fun _ hnr1 => by simp [hr1] at hnr1⟩

theorem C4_retry_whitelist_and_attempt_bound_witness :
    generate_gemini_analysis (fun _ _ => .apiError .permissionDenied) ⟨"image/jpeg", [1]⟩ =
      ⟨.raised (.apiError .permissionDenied), 1, []⟩ :=
  (C4_retry_whitelist_and_attempt_bound (fun _ _ => .apiError .permissionDenied)
    ⟨"image/jpeg", [1]⟩).2.2 (fun _ h => ModelOutcome.noConfusion h) rfl

/-- Claim C9, counterexample: for a run in which all 3 attempts fail
transiently, the two waits between consecutive attempts are 2 seconds
and 2 seconds, not 2 seconds then 4 seconds as claimed: tenacity
computes multiplier * 2 ^ (attempt_number - 1) clamped to [min, max],
so the second wait is max(2, min(2, 10)) = 2. -/
theorem C9_counterexample_waits_do_not_double :
    (generate_gemini_analysis (fun _ _ => .apiError .serviceUnavailable)
        ⟨"image/jpeg", [1]⟩).waits = [2, 2] ∧
    (generate_gemini_analysis (fun _ _ => .apiError .serviceUnavailable)
        ⟨"image/jpeg", [1]⟩).waits ≠ [2, 4] :=
  ⟨rfl, by decide⟩

/-- Claim C9, amended: the wait before retrying attempt n+1 is
max(2, min(2 ^ (n - 1), 10)) seconds: the schedule is clamped below at
2 seconds and above at 10 seconds, and doubling is only visible once
the unclamped value exceeds the 2-second floor (2, 2, 4, 8, 10, 10,
...); in particular a 3-attempt run waits 2 seconds between each pair
of consecutive attempts. -/
theorem C9_backoff_schedule (model : ImagePart → Nat → ModelOutcome) (part : ImagePart) :
    (∀ n, 1 ≤ n → backoffWait n = Nat.max 2 (Nat.min (2 ^ (n - 1)) 10)) ∧
    backoffWait 1 = 2 ∧ backoffWait 2 = 2 ∧ backoffWait 3 = 4 ∧ backoffWait 4 = 8 ∧
    backoffWait 5 = 10 ∧ backoffWait 6 = 10 ∧
    (generate_gemini_analysis model part).waits =
      List.replicate ((generate_gemini_analysis model part).calls - 1) 2 := by
  refine ⟨?_, by decide, by decide, by decide, by decide, by decide, by decide, ?_⟩
  · intro n hn
    simp only [backoffWait, wait_exponential, one_mul]
    rw [show Nat.max 0 2 = 2 from rfl]
  · have hg : generate_gemini_analysis model part = tenacityGo (model part) 3 1 := rfl
    rcases genRun_cases (model part) with ⟨t, h1, he⟩ | ⟨hne, hnr, he⟩ | ⟨hr1, H2⟩
    · rw [hg, he]
      rfl
    · rw [hg, he]
      rfl
    · rcases H2 with ⟨t, h2, he⟩ | ⟨hne2, hnr2, he⟩ | ⟨hr2, H3⟩
      · rw [hg, he]
        rfl
      · rw [hg, he]
        rfl
      · rcases H3 with ⟨t, h3, he⟩ | ⟨hne3, hnr3, he⟩ | ⟨hr3, he⟩ <;> rw [hg, he] <;> rfl

theorem C9_backoff_schedule_witness : backoffWait 2 = Nat.max 2 (Nat.min (2 ^ (2 - 1)) 10) :=
  (C9_backoff_schedule (fun _ _ => .apiError .serviceUnavailable) ⟨"image/jpeg", [1]⟩).1 2
    (by norm_num)

/-- Claim C3, evaluation at the failing input: two requests carrying
identical image bytes 10 seconds apart, both answered successfully
with the same schema-valid result, each invoke the upstream model
(one call per request, two in total) and leave the cache empty: the
fastapi-cache2 decorator bypasses non-GET requests, so on this POST
route nothing is ever derived, looked up or stored and the second
request is not served from the cache. -/
theorem C3_identical_uploads_each_call_model :
    (analyze_image_endpoint (fun _ => 0) (fun _ _ => .success (some jGoodMinimal))
        "client" 0 ⟨[7], "a.jpg", "image/jpeg", 0⟩ ⟨[], []⟩).1 = .ok jGoodMinimal ∧
    (analyze_image_endpoint (fun _ => 0) (fun _ _ => .success (some jGoodMinimal))
        "client" 0 ⟨[7], "a.jpg", "image/jpeg", 0⟩ ⟨[], []⟩).2.2.modelCalls = 1 ∧
    (analyze_image_endpoint (fun _ => 0) (fun _ _ => .success (some jGoodMinimal))
        "client" 0 ⟨[7], "a.jpg", "image/jpeg", 0⟩ ⟨[], []⟩).2.1.cache = [] ∧
    (analyze_image_endpoint (fun _ => 0) (fun _ _ => .success (some jGoodMinimal))
        "client" 10 ⟨[7], "a.jpg", "image/jpeg", 0⟩
        (analyze_image_endpoint (fun _ => 0) (fun _ _ => .success (some jGoodMinimal))
          "client" 0 ⟨[7], "a.jpg", "image/jpeg", 0⟩ ⟨[], []⟩).2.1).1 = .ok jGoodMinimal ∧
    (analyze_image_endpoint (fun _ => 0) (fun _ _ => .success (some jGoodMinimal))
        "client" 10 ⟨[7], "a.jpg", "image/jpeg", 0⟩
        (analyze_image_endpoint (fun _ => 0) (fun _ _ => .success (some jGoodMinimal))
          "client" 0 ⟨[7], "a.jpg", "image/jpeg", 0⟩ ⟨[], []⟩).2.1).2.2.modelCalls = 1 ∧
    (analyze_image_endpoint (fun _ => 0) (fun _ _ => .success (some jGoodMinimal))
        "client" 10 ⟨[7], "a.jpg", "image/jpeg", 0⟩
        (analyze_image_endpoint (fun _ => 0) (fun _ _ => .success (some jGoodMinimal))
          "client" 0 ⟨[7], "a.jpg", "image/jpeg", 0⟩ ⟨[], []⟩).2.1).2.1.cache = [] ∧
    (1 : Nat) + 1 = 2 :=
  ⟨rfl, rfl, rfl, rfl, rfl, rfl, rfl⟩

/-- Claim C5, counterexample: the endpoint returns to the caller a
body whose subject has subjectType ROCK, outside PLANT/PEST/UNKNOWN,
and confidence 3/2, outside [0,1]: AnalysisSubject declares
subjectType as a plain str and confidence as a plain unconstrained
float, so neither the enumeration nor the [0,1] range of the claim is
enforced on the subject. -/
theorem C5_counterexample_unconstrained_subject :
    (analyze_image_endpoint (fun _ => 0) (fun _ _ => .success (some jBadSubject)) "client" 0
        ⟨[1], "leaf.jpg", "image/jpeg", 0⟩ ⟨[], []⟩).1 = .ok jBadSubject ∧
    jBadSubject = .obj [("subject", .obj [("subjectType", .str "ROCK"),
        ("description", .str "a rock"), ("confidence", .num 2)]),
        ("detections", .arr [])] ∧
    ("ROCK" ∉ (["PLANT", "PEST", "UNKNOWN"] : List String)) ∧
    ¬ ((2 : Rat) ≤ 1) :=
  ⟨rfl, rfl, by decide, by decide⟩

/-- Claim C5, amended: every body the endpoint returns as a 200
response has passed the pydantic response model: all required fields
are present, severity lies in the LOW/MEDIUM/HIGH/CRITICAL enum and
bounding-box coordinates lie in [0,1]; in particular a parsed JSON
missing the required severity of a detection is rejected with a
validation error rather than returned; but subject.subjectType is an
unconstrained string and subject.confidence an unconstrained number,
so those two constraints of the claim are not enforced. -/
theorem C5_amended_validation_boundary :
    (∀ sha256 model identity now file st j st2 tr,
        analyze_image_endpoint sha256 model identity now file st = (.ok j, st2, tr) →
        validateAIAnalysisResponse j = true) ∧
    validateAIAnalysisResponse jMissingSeverity = false ∧
    (analyze_image_endpoint (fun _ => 0) (fun _ _ => .success (some jMissingSeverity)) "client" 0
        ⟨[1], "leaf.jpg", "image/jpeg", 0⟩ ⟨[], []⟩).1 =
      .error 500 "Response validation error" := by
  refine ⟨?_, rfl, rfl⟩
  intro sha256 model identity now file st j st2 tr h
  simp only [analyze_image_endpoint, if_neg request_method_not_get] at h
  split at h
  · split at h
    · have h1 := congrArg Prod.fst h
      simp only at h1
      exact responseValidate_ok h1
    · have h1 := congrArg Prod.fst h
      simp at h1
  · have h1 := congrArg Prod.fst h
    simp at h1

theorem C5_amended_validation_boundary_witness :
    validateAIAnalysisResponse jGoodMinimal = true :=
  C5_amended_validation_boundary.1 (fun _ => 0) (fun _ _ => .success (some jGoodMinimal))
    "client" 0 ⟨[1], "leaf.jpg", "image/jpeg", 0⟩ ⟨[], []⟩ jGoodMinimal
    (analyze_image_endpoint (fun _ => 0) (fun _ _ => .success (some jGoodMinimal))
      "client" 0 ⟨[1], "leaf.jpg", "image/jpeg", 0⟩ ⟨[], []⟩).2.1
    (analyze_image_endpoint (fun _ => 0) (fun _ _ => .success (some jGoodMinimal))
      "client" 0 ⟨[1], "leaf.jpg", "image/jpeg", 0⟩ ⟨[], []⟩).2.2 rfl

/-- Claim C7: a request from an identity whose fixed window already
holds the cap of 15 hits is rejected with the 429 throttling error
with no cache key derivation, no cache lookup, no model call and an
unchanged cache; once the 60-second window has elapsed the rate check
admits the identity again; and within a window the rate check admits a
request exactly when the incremented hit count stays within the cap of
15, so at most 15 requests are admitted per identity per window. -/
theorem C7_rate_limit_window (sha256 : List Nat → Nat) (model : ImagePart → Nat → ModelOutcome)
    (identity : String) (now : Nat) (file : UploadFile) (st : ServerState) (ws : Nat) :
    (bucketsGet st.buckets identity = some ⟨ws, RATE_CAP⟩ → now < ws + RATE_WINDOW →
      analyze_image_endpoint sha256 model identity now file st =
        (.error 429 "Rate limit exceeded: 15 per 1 minute",
         ⟨st.cache, (identity, ⟨ws, RATE_CAP + 1⟩) :: st.buckets⟩, ⟨1, 0, 0, 0, 0⟩)) ∧
    (∀ c, ws + RATE_WINDOW ≤ now → (limiterHit now (some ⟨ws, c⟩)).1 = true) ∧
    (∀ c, now < ws + RATE_WINDOW →
      ((limiterHit now (some ⟨ws, c⟩)).1 = true ↔ c + 1 ≤ RATE_CAP)) := by
  refine ⟨fun hb hw => ?_, fun c hw => ?_, fun c hw => ?_⟩
  · have hlim : limiterHit now (bucketsGet st.buckets identity) =
        (false, ⟨ws, RATE_CAP + 1⟩) := by
      rw [hb]
      simp [limiterHit, hw, RATE_CAP]
    simp [analyze_image_endpoint, hlim]
  · have hnot : ¬ (now < ws + RATE_WINDOW) := by omega
    simp [limiterHit, hnot]
  · simp [limiterHit, hw]

theorem C7_rate_limit_window_witness :
    analyze_image_endpoint (fun _ => 0) (fun _ _ => .otherError) "client" 30
        ⟨[1], "leaf.jpg", "image/jpeg", 0⟩ ⟨[], [("client", ⟨5, 15⟩)]⟩ =
      (.error 429 "Rate limit exceeded: 15 per 1 minute",
       ⟨[], ("client", ⟨5, 16⟩) :: [("client", ⟨5, 15⟩)]⟩, ⟨1, 0, 0, 0, 0⟩) :=
  (C7_rate_limit_window (fun _ => 0) (fun _ _ => .otherError) "client" 30
    ⟨[1], "leaf.jpg", "image/jpeg", 0⟩ ⟨[], [("client", ⟨5, 15⟩)]⟩ 5).1 rfl (by decide)

/-- Claim C8: no request ever modifies the cache — in particular no
request failing at any step (unsupported format, rate limit, model
error, non-JSON parse, schema-validation failure) creates a cache
entry, and every cache write stores a schema-validated result under
the derived key with the 24-hour TTL vacuously, since the
fastapi-cache2 decorator bypasses non-GET requests and therefore
performs no write at all on this POST route. -/
theorem C8_cache_never_written (sha256 : List Nat → Nat)
    (model : ImagePart → Nat → ModelOutcome) (identity : String) (now : Nat)
    (file : UploadFile) (st : ServerState) :
    (analyze_image_endpoint sha256 model identity now file st).2.1.cache = st.cache ∧
    (analyze_image_endpoint sha256 model identity now file st).2.2.cacheWrites = 0 := by
  simp only [analyze_image_endpoint, if_neg request_method_not_get]
  constructor
  · split
    · split <;> rfl
    · rfl
  · split
    · split <;> rfl
    · rfl

end PestAI
